import Mathlib

/-
Verification development for the cross-system business-verification
orchestrator in `government-integrations.py`.

The Python code is shallowly embedded: the async adapter calls are an
oracle `outcomes : SystemCode → Except String SysData` (an adapter either
raises, carrying an error string, or returns its normalized data dict),
database writes are an oracle `store`, and the in-memory dicts of the
Python code become association lists.  Time is a rational number of
seconds; floats are modelled by exact rationals.
-/

namespace GovInt

/-- The `SystemCode` enum of the source (federal, provincial and
Indigenous registries). -/
inductive SystemCode
  | CRA
  | ISED
  | ISC
  | PSPC
  | ON_ONBIS
  | QC_REQ
  | CCAB
  | SUPPLY_NATION
deriving DecidableEq, Repr, Fintype

/-- The `.value` string of each `SystemCode` enum member. -/
def SystemCode.value : SystemCode → String
  | .CRA => "cra"
  | .ISED => "ised"
  | .ISC => "isc"
  | .PSPC => "pspc"
  | .ON_ONBIS => "on_onbis"
  | .QC_REQ => "qc_req"
  | .CCAB => "ccab"
  | .SUPPLY_NATION => "supply_nation"

/-- The `system` field written by the per-system `_verify_*` adapter of
each system (for example `_verify_cra` returns a dict with
`system = "CRA"`). -/
def canonicalName : SystemCode → String
  | .CRA => "CRA"
  | .ISED => "ISED"
  | .ISC => "ISC"
  | .PSPC => "PSPC"
  | .ON_ONBIS => "ON_ONBIS"
  | .QC_REQ => "QC_REQ"
  | .CCAB => "CCAB"
  | .SUPPLY_NATION => "SUPPLY_NATION"

/-- An address dict as consumed by `_normalize_address`.  `none` models a
missing key; `some s` models the key present with string value `s`.  An
empty dict (all fields `none`) is falsy in Python. -/
structure Address where
  streetNumber : Option String := none
  streetName : Option String := none
  city : Option String := none
  province : Option String := none
  postalCode : Option String := none
deriving DecidableEq, Repr

/-- Python truthiness of an optional address dict: `None` and the empty
dict `\x7b\x7d` are falsy, a dict with at least one key is truthy. -/
def addrTruthy : Option Address → Bool
  | none => false
  | some a =>
      a.streetNumber.isSome || a.streetName.isSome || a.city.isSome ||
        a.province.isSome || a.postalCode.isSome

/-- Python str.upper, computed on the character list. -/
def strToUpper (s : String) : String :=
  String.mk (s.data.map Char.toUpper)

/-- Python str.replace of the space character by the empty string:
remove every space. -/
def stripSpaces (s : String) : String :=
  String.mk (s.data.filter (fun c => c ≠ ' '))

/-- `_normalize_address` of the source: join street number, upper-cased
street name, city and province, and the upper-cased postal code with its
spaces removed, separated by vertical bars. -/
def normalize_address (a : Address) : String :=
  String.intercalate "|"
    [a.streetNumber.getD "",
     strToUpper (a.streetName.getD ""),
     strToUpper (a.city.getD ""),
     strToUpper (a.province.getD ""),
     stripSpaces (strToUpper (a.postalCode.getD ""))]

/-- `_normalize_address` applied to an optional address, with the
`.get(key, \x7b\x7d)` default of the call sites. -/
def normalizeOpt (o : Option Address) : String :=
  normalize_address (o.getD {})

/-- The normalized per-system record returned by an adapter, restricted
to the fields the orchestrator reads back.  `none` models a missing or
null dict key; list-valued keys are `Option (List String)` so the
`.get(key, [])` defaults of the call sites are explicit. -/
structure SysData where
  system : String
  business_status : Option String := none
  corporate_status : Option String := none
  statut : Option String := none
  physical_address : Option Address := none
  registered_office : Option Address := none
  indigenous_ownership_percentage : Option ℚ := none
  verified_owners : Option (List String) := none
  directors : Option (List String) := none
deriving DecidableEq, Repr

/-- `consolidated_data`: a dict from system name to its merged record,
as an association list in insertion order. -/
abbrev Consolidated := List (String × SysData)

/-- Dict lookup in `consolidated_data`. -/
def lookupSys (c : Consolidated) (k : String) : Option SysData :=
  (c.find? (fun p => p.1 = k)).map Prod.snd

/-- Key-wise dict update: the keys present in the new record overwrite
the old ones (a `none` field models an absent key and leaves the old
value in place). -/
def mergeFields (old nd : SysData) : SysData where
  system := nd.system
  business_status := nd.business_status.or old.business_status
  corporate_status := nd.corporate_status.or old.corporate_status
  statut := nd.statut.or old.statut
  physical_address := nd.physical_address.or old.physical_address
  registered_office := nd.registered_office.or old.registered_office
  indigenous_ownership_percentage :=
    nd.indigenous_ownership_percentage.or old.indigenous_ownership_percentage
  verified_owners := nd.verified_owners.or old.verified_owners
  directors := nd.directors.or old.directors

/-- `_merge_verification_data`: create the per-system section if absent
and copy the keys of the new record into it. -/
def merge_verification_data (c : Consolidated) (nd : SysData) : Consolidated :=
  match lookupSys c nd.system with
  | none => c ++ [(nd.system, nd)]
  | some old => c.map (fun p => if p.1 = nd.system then (p.1, mergeFields old nd) else p)

/-- The red-flag string appended for a failing adapter call. -/
def failMsg (s : SystemCode) (e : String) : String :=
  "Failed to verify with " ++ s.value ++ ": " ++ e

/-- The address-mismatch red-flag string. -/
def addrMsg : String := "Inconsistent addresses between CRA and ISED records"

/-- The status-mismatch red-flag string, with the other status and other
system name interpolated. -/
def statusMsg (st nm : String) : String :=
  "Business active with CRA but " ++ st ++ " with " ++ nm

/-- The ownership-director-mismatch red-flag string. -/
def ownMsg : String := "Majority Indigenous ownership but minority Indigenous directors"

/-- Python `x or y` on optional strings: keep `x` when it is truthy
(present and non-empty), otherwise fall through to `y`. -/
def pyOr (a b : Option String) : Option String :=
  match a with
  | some s => if s = "" then b else some s
  | none => b

/-- First block of `_check_data_inconsistencies`: the CRA-versus-ISED
address comparison. -/
def addressFlags (c : Consolidated) (nd : SysData) (sys : SystemCode) : List String :=
  match lookupSys c "CRA" with
  | some cd =>
      if sys = SystemCode.ISED then
        if addrTruthy cd.physical_address && addrTruthy nd.registered_office then
          if normalizeOpt cd.physical_address ≠ normalizeOpt nd.registered_office then
            [addrMsg]
          else []
        else []
      else []
  | none => []

/-- Second block of `_check_data_inconsistencies`: business status of CRA
against the status reported by ISED or a provincial registry. -/
def statusFlags (c : Consolidated) (nd : SysData) : List String :=
  match lookupSys c "CRA" with
  | some cd =>
      if nd.system ∈ ["ISED", "ON_ONBIS", "QC_REQ"] then
        match pyOr (pyOr nd.business_status nd.corporate_status) nd.statut with
        | some st =>
            if cd.business_status = some "active" ∧ st ∈ ["dissolved", "inactive", "fermée"] then
              [statusMsg st nd.system]
            else []
        | none => []
      else []
  | none => []

/-- Third block of `_check_data_inconsistencies`: the claimed Indigenous
ownership percentage against the overlap of verified owners and
directors. -/
def ownershipFlags (c : Consolidated) : List String :=
  match lookupSys c "ISC", lookupSys c "ISED" with
  | some iscd, some isedd =>
      if (51 : ℚ) ≤ (iscd.indigenous_ownership_percentage.getD 0) then
        if (iscd.verified_owners.getD []).toFinset ≠ ∅ ∧
            (isedd.directors.getD []).toFinset ≠ ∅ then
          if 2 * ((iscd.verified_owners.getD []).toFinset ∩
              (isedd.directors.getD []).toFinset).card <
              (isedd.directors.getD []).toFinset.card then
            [ownMsg]
          else []
        else []
      else []
  | _, _ => []

/-- `_check_data_inconsistencies`: the three rule blocks in source
order. -/
def check_data_inconsistencies (c : Consolidated) (nd : SysData) (sys : SystemCode) :
    List String :=
  addressFlags c nd sys ++ statusFlags c nd ++ ownershipFlags c

/-- Python str.startswith, computed on the character lists. -/
def strStartsWith (s p : String) : Bool :=
  p.data.isPrefixOf s.data

/-- `_determine_relevant_systems`: the four baseline federal systems,
plus Ontario when the business number starts with 1, or Quebec when it
starts with 3. -/
def determine_relevant_systems (bn : String) : List SystemCode :=
  if strStartsWith bn "1" then
    [SystemCode.CRA, SystemCode.ISED, SystemCode.ISC, SystemCode.PSPC, SystemCode.ON_ONBIS]
  else if strStartsWith bn "3" then
    [SystemCode.CRA, SystemCode.ISED, SystemCode.ISC, SystemCode.PSPC, SystemCode.QC_REQ]
  else
    [SystemCode.CRA, SystemCode.ISED, SystemCode.ISC, SystemCode.PSPC]

/-- The `verification_results` dict built by
`verify_business_across_systems`. -/
structure VerificationResults where
  business_number : String
  verification_timestamp : String
  systems_checked : List String
  consolidated_data : Consolidated
  red_flags : List String
  verification_score : ℚ
deriving DecidableEq, Repr

/-- The initial `verification_results` dict. -/
def initResults (bn ts : String) : VerificationResults where
  business_number := bn
  verification_timestamp := ts
  systems_checked := []
  consolidated_data := []
  red_flags := []
  verification_score := 0

/-- The score before clamping: 1.0 minus 0.1 per expected-but-unchecked
system (4 expected) minus 0.15 per red flag. -/
def preScore (checked flags : ℕ) : ℚ :=
  1 - ((4 : ℚ) - (checked : ℚ)) * (1 / 10) - (flags : ℚ) * (15 / 100)

/-- `_calculate_verification_score`: the pre-clamp score clamped to
[0, 1]. -/
def calculate_verification_score (r : VerificationResults) : ℚ :=
  max 0 (min 1 (preScore r.systems_checked.length r.red_flags.length))

/-- The result-processing loop of `verify_business_across_systems`: a
failing adapter appends a failure red flag; a succeeding adapter records
its system as checked, merges its data, and appends the inconsistency
flags computed on the merged record. -/
def processResults (outcomes : SystemCode → Except String SysData) :
    VerificationResults → List SystemCode → VerificationResults
  | acc, [] => acc
  | acc, s :: rest =>
    match outcomes s with
    | .error e =>
        processResults outcomes
          { acc with red_flags := acc.red_flags ++ [failMsg s e] } rest
    | .ok d =>
        processResults outcomes
          { acc with
              systems_checked := acc.systems_checked ++ [s.value],
              consolidated_data := merge_verification_data acc.consolidated_data d,
              red_flags := acc.red_flags ++
                check_data_inconsistencies (merge_verification_data acc.consolidated_data d) d s }
          rest

/-- The pure part of `verify_business_across_systems`: select the
relevant systems, process the per-system outcomes in order, and fill in
the verification score. -/
def verify_pure (bn ts : String) (outcomes : SystemCode → Except String SysData) :
    VerificationResults :=
  let r := processResults outcomes (initResults bn ts) (determine_relevant_systems bn)
  { r with verification_score := calculate_verification_score r }

/-- `_store_verification_results`: one awaited `db.execute` per entry of
`systems_checked` (the database is the oracle `dbExec`, keyed by the
system string being written); the loop performs no call on an empty
list, and a raising execute propagates immediately. -/
def store_verification_results (dbExec : String → Except String Unit) :
    List String → Except String Unit
  | [] => .ok ()
  | s :: rest =>
    match dbExec s with
    | .error e => .error e
    | .ok _ => store_verification_results dbExec rest

/-- `verify_business_across_systems`: build the result, then await
`_store_verification_results` over its `systems_checked`; the store call
is not guarded, so a raising database write propagates and the result is
not returned. -/
def verify_business_across_systems (bn ts : String)
    (outcomes : SystemCode → Except String SysData)
    (dbExec : String → Except String Unit) :
    Except String VerificationResults :=
  let r := verify_pure bn ts outcomes
  match store_verification_results dbExec r.systems_checked with
  | .error e => .error e
  | .ok _ => .ok r

/-- The in-memory result cache `self.cache`, keyed by
(system value, business number), holding the data and its fetch time in
seconds. -/
abbrev Cache := List ((String × String) × (SysData × ℚ))

/-- Cache dict lookup. -/
def cacheLookup (c : Cache) (k : String × String) : Option (SysData × ℚ) :=
  (c.find? (fun p => p.1 = k)).map Prod.snd

/-- Cache dict assignment: overwrite the entry when the key is present,
append it otherwise. -/
def cachePut (c : Cache) (k : String × String) (v : SysData × ℚ) : Cache :=
  if (c.find? (fun p => p.1 = k)).isSome then
    c.map (fun p => if p.1 = k then (k, v) else p)
  else c ++ [(k, v)]

/-- The `cache_ttl` of every configured `SystemEndpoint` (all use the
3600-second default). -/
def cacheTTL (_ : SystemCode) : ℚ := 3600

/-- `_verify_with_system`: serve from the cache when strictly within the
TTL; otherwise perform the network fetch (counted in the third
component), caching a successful result with the current time and
leaving the cache untouched on failure. -/
def verify_with_system (cache : Cache) (s : SystemCode) (bn : String) (now : ℚ)
    (fetch : Except String SysData) : Except String SysData × Cache × ℕ :=
  match cacheLookup cache (s.value, bn) with
  | some (d, t) =>
      if now - t < cacheTTL s then (.ok d, cache, 0)
      else
        match fetch with
        | .ok nd => (.ok nd, cachePut cache (s.value, bn) (nd, now), 1)
        | .error e => (.error e, cache, 1)
  | none =>
      match fetch with
      | .ok nd => (.ok nd, cachePut cache (s.value, bn) (nd, now), 1)
      | .error e => (.error e, cache, 1)

/-- Concrete outcomes with two succeeding and two failing adapters. -/
def c1Outcomes : SystemCode → Except String SysData
  | .CRA => .ok { system := "CRA" }
  | .ISED => .ok { system := "ISED" }
  | _ => .error "down"

/-- Concrete outcomes where CRA answers with an empty record (the shape
of a no-data response) and ISED raises a not-found error. -/
def c2Outcomes : SystemCode → Except String SysData
  | .CRA => .ok { system := "CRA" }
  | .ISED => .error "NotFound"
  | _ => .error "down"

/-- Concrete outcomes where every adapter raises. -/
def c6Outcomes : SystemCode → Except String SysData
  | _ => .error "connection timeout"

/-- Concrete outcomes where CRA returns an empty (falsy) physical
address and ISED returns a non-empty registered office. -/
def c7Outcomes : SystemCode → Except String SysData
  | .CRA => .ok { system := "CRA", physical_address := some {} }
  | .ISED => .ok { system := "ISED",
                   registered_office := some { streetName := some "Main" } }
  | _ => .error "down"

/-- Concrete outcomes where ISC claims exactly 50 percent Indigenous
ownership with one verified owner and ISED lists two directors, none of
whom is a verified owner. -/
def c8Outcomes : SystemCode → Except String SysData
  | .ISC => .ok { system := "ISC", indigenous_ownership_percentage := some 50,
                  verified_owners := some ["owner1"] }
  | .ISED => .ok { system := "ISED", directors := some ["dir1", "dir2"] }
  | _ => .error "down"

/-- Concrete outcomes where exactly CRA succeeds, so exactly one
database write is attempted during persistence. -/
def c9Outcomes : SystemCode → Except String SysData
  | .CRA => .ok { system := "CRA" }
  | _ => .error "down"

/-- Whether an adapter outcome is a success (no exception). -/
def isOkB : Except String SysData → Bool
  | .ok _ => true
  | .error _ => false

/-- The selected systems whose adapter call succeeded, in selection
order. -/
def okSystems (outcomes : SystemCode → Except String SysData)
    (systems : List SystemCode) : List SystemCode :=
  systems.filter (fun s => isOkB (outcomes s))

/-- The `consolidated_data` entries contributed by the succeeding
systems, in selection order. -/
def okEntries (outcomes : SystemCode → Except String SysData)
    (systems : List SystemCode) : List (String × SysData) :=
  systems.filterMap (fun s => ((outcomes s).toOption).map (fun d => (d.system, d)))

/-- Whether a red flag is a per-adapter failure entry, recognized by its
fixed 22-character leading text. -/
def isFailureFlag (f : String) : Bool :=
  f.data.take 22 == "Failed to verify with ".data

/-- Whether the second character list starts with the first. -/
def startsWithSeq : List Char → List Char → Bool
  | [], _ => true
  | _ :: _, [] => false
  | p :: ps, c :: cs => p == c && startsWithSeq ps cs

/-- Whether the second character list contains the first as a contiguous
subsequence. -/
def containsSeq (pat : List Char) : List Char → Bool
  | [] => pat.isEmpty
  | c :: cs => startsWithSeq pat (c :: cs) || containsSeq pat cs

@[simp] theorem isOkB_error (e : String) : isOkB (.error e) = false := rfl

@[simp] theorem isOkB_ok (d : SysData) : isOkB (.ok d) = true := rfl

theorem take22_statusMsg (st nm : String) :
    (statusMsg st nm).data.take 22 = "Business active with C".data := by
  have h : (statusMsg st nm).data
      = "Business active with CRA but ".data ++ (st.data ++ (" with ".data ++ nm.data)) := by
    simp [statusMsg, String.data_append, List.append_assoc]
  rw [h, List.take_append_of_le_length (by decide)]
  decide

theorem take22_failMsg (s : SystemCode) (e : String) :
    (failMsg s e).data.take 22 = "Failed to verify with ".data := by
  have h : (failMsg s e).data
      = "Failed to verify with ".data ++ (s.value.data ++ (": ".data ++ e.data)) := by
    simp [failMsg, String.data_append, List.append_assoc]
  rw [h, List.take_append_of_le_length (by decide)]
  decide

theorem isFailureFlag_failMsg (s : SystemCode) (e : String) :
    isFailureFlag (failMsg s e) = true := by
  unfold isFailureFlag
  rw [take22_failMsg]
  decide

theorem isFailureFlag_statusMsg (st nm : String) :
    isFailureFlag (statusMsg st nm) = false := by
  unfold isFailureFlag
  rw [take22_statusMsg]
  decide

theorem isFailureFlag_addrMsg : isFailureFlag addrMsg = false := by decide

theorem isFailureFlag_ownMsg : isFailureFlag ownMsg = false := by decide

theorem statusMsg_ne_addrMsg (st nm : String) : statusMsg st nm ≠ addrMsg := by
  intro h
  have h2 : (statusMsg st nm).data.take 22 = addrMsg.data.take 22 := by rw [h]
  rw [take22_statusMsg] at h2
  exact absurd h2 (by decide)

theorem statusMsg_ne_ownMsg (st nm : String) : statusMsg st nm ≠ ownMsg := by
  intro h
  have h2 : (statusMsg st nm).data.take 22 = ownMsg.data.take 22 := by rw [h]
  rw [take22_statusMsg] at h2
  exact absurd h2 (by decide)

theorem addrMsg_ne_ownMsg : addrMsg ≠ ownMsg := by decide

theorem mem_addressFlags {c : Consolidated} {nd : SysData} {sys : SystemCode} {f : String}
    (h : f ∈ addressFlags c nd sys) : f = addrMsg := by
  unfold addressFlags at h
  split at h
  · split at h
    · split at h
      · split at h
        · simpa using h
        · simp at h
      · simp at h
    · simp at h
  · simp at h

theorem mem_statusFlags {c : Consolidated} {nd : SysData} {f : String}
    (h : f ∈ statusFlags c nd) :
    ∃ st, st ∈ (["dissolved", "inactive", "fermée"] : List String) ∧ f = statusMsg st nd.system := by
  unfold statusFlags at h
  split at h
  · split at h
    · split at h
      · split at h
        · rename_i st hpy hcond
          simp only [List.mem_singleton] at h
          exact ⟨st, hcond.2, h⟩
        · simp at h
      · simp at h
    · simp at h
  · simp at h

theorem mem_ownershipFlags {c : Consolidated} {f : String}
    (h : f ∈ ownershipFlags c) : f = ownMsg := by
  unfold ownershipFlags at h
  split at h
  · split at h
    · split at h
      · split at h
        · simpa using h
        · simp at h
      · simp at h
    · simp at h
  · simp at h

theorem isFailureFlag_check {c : Consolidated} {nd : SysData} {sys : SystemCode} {f : String}
    (h : f ∈ check_data_inconsistencies c nd sys) : isFailureFlag f = false := by
  unfold check_data_inconsistencies at h
  rcases List.mem_append.mp h with h1 | h1
  · rcases List.mem_append.mp h1 with h2 | h2
    · rw [mem_addressFlags h2]; exact isFailureFlag_addrMsg
    · obtain ⟨st, _, rfl⟩ := mem_statusFlags h2
      exact isFailureFlag_statusMsg st nd.system
  · rw [mem_ownershipFlags h1]; exact isFailureFlag_ownMsg

theorem lookupSys_eq_none {c : Consolidated} {k : String} (h : k ∉ c.map Prod.fst) :
    lookupSys c k = none := by
  unfold lookupSys
  rw [List.find?_eq_none.mpr]
  · rfl
  intro p hp
  simp only [decide_eq_true_eq]
  intro hpk
  exact h (List.mem_map.mpr ⟨p, hp, hpk⟩)

theorem merge_append {c : Consolidated} {nd : SysData} (h : nd.system ∉ c.map Prod.fst) :
    merge_verification_data c nd = c ++ [(nd.system, nd)] := by
  unfold merge_verification_data
  rw [lookupSys_eq_none h]

theorem okSystems_cons_error {outcomes : SystemCode → Except String SysData}
    {s : SystemCode} {e : String} (rest : List SystemCode) (h : outcomes s = .error e) :
    okSystems outcomes (s :: rest) = okSystems outcomes rest := by
  simp [okSystems, List.filter_cons, h]

theorem okSystems_cons_ok {outcomes : SystemCode → Except String SysData}
    {s : SystemCode} {d : SysData} (rest : List SystemCode) (h : outcomes s = .ok d) :
    okSystems outcomes (s :: rest) = s :: okSystems outcomes rest := by
  simp [okSystems, List.filter_cons, h]

theorem okEntries_cons_error {outcomes : SystemCode → Except String SysData}
    {s : SystemCode} {e : String} (rest : List SystemCode) (h : outcomes s = .error e) :
    okEntries outcomes (s :: rest) = okEntries outcomes rest := by
  simp [okEntries, List.filterMap_cons, h, Except.toOption]

theorem okEntries_cons_ok {outcomes : SystemCode → Except String SysData}
    {s : SystemCode} {d : SysData} (rest : List SystemCode) (h : outcomes s = .ok d) :
    okEntries outcomes (s :: rest) = (d.system, d) :: okEntries outcomes rest := by
  simp [okEntries, List.filterMap_cons, h, Except.toOption]

theorem processResults_systems_checked (outcomes : SystemCode → Except String SysData) :
    ∀ (systems : List SystemCode) (acc : VerificationResults),
    (processResults outcomes acc systems).systems_checked
      = acc.systems_checked ++ (okSystems outcomes systems).map SystemCode.value := by
  intro systems
  induction systems with
  | nil => intro acc; simp [processResults, okSystems]
  | cons s rest ih =>
    intro acc
    cases h : outcomes s with
    | error e =>
        simp only [processResults, h]
        rw [ih, okSystems_cons_error rest h]
    | ok d =>
        simp only [processResults, h]
        rw [ih, okSystems_cons_ok rest h]
        simp

theorem processResults_red_flags_ext (outcomes : SystemCode → Except String SysData) :
    ∀ (systems : List SystemCode) (acc : VerificationResults),
    ∃ l, (processResults outcomes acc systems).red_flags = acc.red_flags ++ l := by
  intro systems
  induction systems with
  | nil => intro acc; exact ⟨[], by simp [processResults]⟩
  | cons s rest ih =>
    intro acc
    cases h : outcomes s with
    | error e =>
        obtain ⟨l, hl⟩ := ih { acc with red_flags := acc.red_flags ++ [failMsg s e] }
        refine ⟨[failMsg s e] ++ l, ?_⟩
        simp only [processResults, h]
        rw [hl]
        simp
    | ok d =>
        obtain ⟨l, hl⟩ := ih
          { acc with
              systems_checked := acc.systems_checked ++ [s.value],
              consolidated_data := merge_verification_data acc.consolidated_data d,
              red_flags := acc.red_flags ++
                check_data_inconsistencies (merge_verification_data acc.consolidated_data d) d s }
        refine ⟨check_data_inconsistencies (merge_verification_data acc.consolidated_data d) d s ++ l, ?_⟩
        simp only [processResults, h]
        rw [hl]
        simp

theorem processResults_failMsg_mem (outcomes : SystemCode → Except String SysData) :
    ∀ (systems : List SystemCode) (acc : VerificationResults) (s : SystemCode) (e : String),
    s ∈ systems → outcomes s = .error e →
    failMsg s e ∈ (processResults outcomes acc systems).red_flags := by
  intro systems
  induction systems with
  | nil => intro acc s e hs _; simp at hs
  | cons s0 rest ih =>
    intro acc s e hs he
    rcases List.mem_cons.mp hs with heq | hmem
    · subst heq
      simp only [processResults, he]
      obtain ⟨l, hl⟩ :=
        processResults_red_flags_ext outcomes rest
          { acc with red_flags := acc.red_flags ++ [failMsg s e] }
      rw [hl]
      simp
    · cases h0 : outcomes s0 with
      | error e0 => simp only [processResults, h0]; exact ih _ s e hmem he
      | ok d0 => simp only [processResults, h0]; exact ih _ s e hmem he

theorem processResults_consolidated (outcomes : SystemCode → Except String SysData)
    (hname : ∀ s d, outcomes s = .ok d → d.system = canonicalName s) :
    ∀ (systems : List SystemCode) (acc : VerificationResults),
    (acc.consolidated_data.map Prod.fst ++ (okSystems outcomes systems).map canonicalName).Nodup →
    (processResults outcomes acc systems).consolidated_data
      = acc.consolidated_data ++ okEntries outcomes systems := by
  intro systems
  induction systems with
  | nil => intro acc _; simp [processResults, okEntries]
  | cons s rest ih =>
    intro acc hnd
    cases h : outcomes s with
    | error e =>
        rw [okSystems_cons_error rest h] at hnd
        simp only [processResults, h]
        rw [ih { acc with red_flags := acc.red_flags ++ [failMsg s e] } (by simpa using hnd),
          okEntries_cons_error rest h]
    | ok d =>
        have hsys : d.system = canonicalName s := hname s d h
        rw [okSystems_cons_ok rest h] at hnd
        have hnotin : canonicalName s ∉ acc.consolidated_data.map Prod.fst := by
          rcases List.nodup_append.mp hnd with ⟨_, _, hdisj⟩
          intro hin
          exact hdisj hin (by simp)
        have hmerge : merge_verification_data acc.consolidated_data d
            = acc.consolidated_data ++ [(d.system, d)] :=
          merge_append (by rw [hsys]; exact hnotin)
        have hnd2 : ((merge_verification_data acc.consolidated_data d).map Prod.fst
            ++ (okSystems outcomes rest).map canonicalName).Nodup := by
          rw [hmerge]
          simp only [List.map_append, List.map_cons, List.map_nil, List.append_assoc, hsys]
          simpa [List.append_assoc] using hnd
        simp only [processResults, h]
        rw [ih { acc with
              systems_checked := acc.systems_checked ++ [s.value],
              consolidated_data := merge_verification_data acc.consolidated_data d,
              red_flags := acc.red_flags ++
                check_data_inconsistencies (merge_verification_data acc.consolidated_data d) d s }
            hnd2,
          okEntries_cons_ok rest h]
        show merge_verification_data acc.consolidated_data d ++ okEntries outcomes rest = _
        rw [hmerge]
        simp [List.append_assoc]

theorem okEntries_map_fst (outcomes : SystemCode → Except String SysData)
    (hname : ∀ s d, outcomes s = .ok d → d.system = canonicalName s) :
    ∀ systems : List SystemCode,
    (okEntries outcomes systems).map Prod.fst = (okSystems outcomes systems).map canonicalName := by
  intro systems
  induction systems with
  | nil => rfl
  | cons s rest ih =>
    cases h : outcomes s with
    | error e => rw [okEntries_cons_error rest h, okSystems_cons_error rest h, ih]
    | ok d =>
        rw [okEntries_cons_ok rest h, okSystems_cons_ok rest h]
        simp [ih, hname s d h]

theorem okEntries_length (outcomes : SystemCode → Except String SysData) :
    ∀ systems : List SystemCode,
    (okEntries outcomes systems).length = (okSystems outcomes systems).length := by
  intro systems
  induction systems with
  | nil => rfl
  | cons s rest ih =>
    cases h : outcomes s with
    | error e => rw [okEntries_cons_error rest h, okSystems_cons_error rest h, ih]
    | ok d =>
        rw [okEntries_cons_ok rest h, okSystems_cons_ok rest h]
        simp [ih]

theorem processResults_all_error (outcomes : SystemCode → Except String SysData)
    (errOf : SystemCode → String) :
    ∀ (systems : List SystemCode) (acc : VerificationResults),
    (∀ s ∈ systems, outcomes s = .error (errOf s)) →
    processResults outcomes acc systems
      = { acc with red_flags := acc.red_flags ++ systems.map (fun s => failMsg s (errOf s)) } := by
  intro systems
  induction systems with
  | nil => intro acc _; simp [processResults]
  | cons s rest ih =>
    intro acc h
    have hs := h s (by simp)
    simp only [processResults, hs]
    rw [ih _ (fun x hx => h x (by simp [hx]))]
    simp

theorem processResults_red_flags_countP (outcomes : SystemCode → Except String SysData) :
    ∀ (systems : List SystemCode) (acc : VerificationResults),
    (processResults outcomes acc systems).red_flags.countP isFailureFlag
      = acc.red_flags.countP isFailureFlag
        + (systems.filter (fun s => ! isOkB (outcomes s))).length := by
  intro systems
  induction systems with
  | nil => intro acc; simp [processResults]
  | cons s rest ih =>
    intro acc
    cases h : outcomes s with
    | error e =>
        simp only [processResults, h]
        rw [ih]
        simp [List.filter_cons, h, List.countP_append, List.countP_cons, isFailureFlag_failMsg]
        omega
    | ok d =>
        simp only [processResults, h]
        rw [ih]
        have hz : (check_data_inconsistencies
            (merge_verification_data acc.consolidated_data d) d s).countP isFailureFlag = 0 :=
          List.countP_eq_zero.mpr (fun f hf => by simp [isFailureFlag_check hf])
        simp [List.filter_cons, h, List.countP_append, hz]

theorem determine_relevant_systems_canonical_nodup (bn : String) :
    ((determine_relevant_systems bn).map canonicalName).Nodup := by
  unfold determine_relevant_systems
  split
  · decide
  · split
    · decide
    · decide

theorem determine_relevant_systems_length (bn : String) :
    (determine_relevant_systems bn).length = 4 ∨ (determine_relevant_systems bn).length = 5 := by
  unfold determine_relevant_systems
  split
  · right; rfl
  · split
    · right; rfl
    · left; rfl

theorem value_injective : ∀ a b : SystemCode, a.value = b.value → a = b := by decide


theorem cacheLookup_cachePut (c : Cache) (k : String × String) (v : SysData × ℚ) :
    cacheLookup (cachePut c k v) k = some v := by
  unfold cachePut
  split
  · rename_i hfind
    induction c with
    | nil => simp at hfind
    | cons p rest ih =>
      by_cases hp : p.1 = k
      · unfold cacheLookup
        simp [List.find?_cons_of_pos, hp]
      · unfold cacheLookup at ih ⊢
        rw [List.find?_isSome] at hfind
        obtain ⟨x, hx, hpx⟩ := hfind
        simp only [decide_eq_true_eq] at hpx
        rcases List.mem_cons.mp hx with heq | hmem
        · exact absurd (heq ▸ hpx) hp
        · have hfind2 : (rest.find? (fun p => p.1 = k)).isSome := by
            rw [List.find?_isSome]
            exact ⟨x, hmem, by simp [hpx]⟩
          have := ih hfind2
          rw [List.map_cons, if_neg hp, List.find?_cons_of_neg _ (by simp [hp])]
          exact this
  · rename_i hfind
    unfold cacheLookup
    rw [List.find?_append]
    have hnone : c.find? (fun p => p.1 = k) = none :=
      Option.not_isSome_iff_eq_none.mp hfind
    rw [hnone]
    simp

/-- Claim C4: for every (system, identifier) key, a cached entry is
served only while strictly less than the TTL has elapsed: such a hit
performs zero fetches and returns the cached data unchanged, while a
lookup at or after expiry performs exactly one fresh fetch, returns the
fetch outcome rather than the stale entry, and a successful fetch
overwrites the entry with the new data and timestamp. -/
theorem C4_cache_ttl (cache : Cache) (s : SystemCode) (bn : String) (now t : ℚ)
    (d : SysData) (fetch : Except String SysData)
    (hhit : cacheLookup cache (s.value, bn) = some (d, t)) :
    (now - t < cacheTTL s →
      verify_with_system cache s bn now fetch = (.ok d, cache, 0))
    ∧ (cacheTTL s ≤ now - t →
        (verify_with_system cache s bn now fetch).2.2 = 1
        ∧ (verify_with_system cache s bn now fetch).1 = fetch
        ∧ ∀ nd, fetch = .ok nd →
            (verify_with_system cache s bn now fetch).2.1
              = cachePut cache (s.value, bn) (nd, now)
            ∧ cacheLookup (verify_with_system cache s bn now fetch).2.1 (s.value, bn)
              = some (nd, now)) := by
  constructor
  · intro hlt
    unfold verify_with_system
    rw [hhit]
    simp [hlt]
  · intro hge
    have hnlt : ¬ (now - t < cacheTTL s) := not_lt.mpr hge
    unfold verify_with_system
    rw [hhit]
    simp only [hnlt, if_false]
    cases fetch with
    | ok nd =>
        refine ⟨rfl, rfl, ?_⟩
        intro nd2 h2
        obtain rfl : nd = nd2 := by injection h2
        exact ⟨rfl, cacheLookup_cachePut cache (s.value, bn) (nd, now)⟩
    | error e =>
        refine ⟨rfl, rfl, ?_⟩
        intro nd2 h2
        exact absurd h2 (by simp)

/-- Claim C4 witness: a concrete single-entry cache, hit strictly within
the TTL and looked up again at expiry. -/
theorem C4_cache_ttl_witness :
    (cacheLookup [(("cra", "bn1"), ({ system := "CRA" }, 100))] ("cra", "bn1")
        = some ({ system := "CRA" }, 100))
    ∧ ((200 : ℚ) - 100 < cacheTTL SystemCode.CRA →
        verify_with_system [(("cra", "bn1"), ({ system := "CRA" }, 100))]
          SystemCode.CRA "bn1" 200 (.error "net")
          = (.ok { system := "CRA" }, [(("cra", "bn1"), ({ system := "CRA" }, 100))], 0))
    ∧ ((200 : ℚ) - 100 < cacheTTL SystemCode.CRA) := by
  refine ⟨rfl, ?_, by norm_num [cacheTTL]⟩
  exact (C4_cache_ttl [(("cra", "bn1"), ({ system := "CRA" }, 100))]
    SystemCode.CRA "bn1" 200 100 { system := "CRA" } (.error "net") rfl).1

/-- Claim C5: an adapter failure is never cached: when the fetch raises,
the cache is unchanged by the call, and when no valid entry was present
the call performed exactly one (failed) network fetch, so a repeated
call finds the cache in the same state and retries the network. -/
theorem C5_failures_not_cached (cache : Cache) (s : SystemCode) (bn : String)
    (now : ℚ) (e : String) :
    (verify_with_system cache s bn now (.error e)).2.1 = cache
    ∧ ((∀ d t, cacheLookup cache (s.value, bn) = some (d, t) → cacheTTL s ≤ now - t) →
        verify_with_system cache s bn now (.error e) = (.error e, cache, 1)) := by
  constructor
  · unfold verify_with_system
    cases hl : cacheLookup cache (s.value, bn) with
    | none => rfl
    | some p =>
        obtain ⟨d, t⟩ := p
        by_cases hlt : now - t < cacheTTL s
        · simp [hlt]
        · simp [hlt]
  · intro hexp
    unfold verify_with_system
    cases hl : cacheLookup cache (s.value, bn) with
    | none => rfl
    | some p =>
        obtain ⟨d, t⟩ := p
        have := hexp d t hl
        have hnlt : ¬ (now - t < cacheTTL s) := not_lt.mpr this
        simp [hnlt]

/-- Claim C5 witness: a failing fetch against an empty cache leaves the
cache empty and performs one network call. -/
theorem C5_failures_not_cached_witness :
    (verify_with_system [] SystemCode.CRA "bn1" 0 (.error "net")).2.1 = ([] : Cache)
    ∧ verify_with_system [] SystemCode.CRA "bn1" 0 (.error "net")
        = (.error "net", ([] : Cache), 1) :=
  ⟨(C5_failures_not_cached [] SystemCode.CRA "bn1" 0 "net").1,
   (C5_failures_not_cached [] SystemCode.CRA "bn1" 0 "net").2
     (fun d t h => by simp [cacheLookup] at h)⟩

/-- Claim C3: for fixed systems_checked, adding one red flag never
increases the verification score, and for every input the score lies in
[0, 1]. -/
theorem C3_score_monotone_and_bounded :
    (∀ r r2 : VerificationResults,
        r2.systems_checked = r.systems_checked →
        r2.red_flags.length = r.red_flags.length + 1 →
        calculate_verification_score r2 ≤ calculate_verification_score r)
    ∧ (∀ r : VerificationResults,
        0 ≤ calculate_verification_score r ∧ calculate_verification_score r ≤ 1) := by
  constructor
  · intro r r2 hs hf
    unfold calculate_verification_score
    rw [hs, hf]
    apply max_le_max le_rfl
    apply min_le_min le_rfl
    unfold preScore
    push_cast
    linarith
  · intro r
    unfold calculate_verification_score
    exact ⟨le_max_left 0 _, max_le (by norm_num) (min_le_left 1 _)⟩

/-- Claim C3 witness: a concrete record and the same record with one
extra red flag. -/
theorem C3_score_monotone_and_bounded_witness :
    calculate_verification_score
        { business_number := "b", verification_timestamp := "t",
          systems_checked := ["cra"], consolidated_data := [],
          red_flags := ["x", "y"], verification_score := 0 }
      ≤ calculate_verification_score
        { business_number := "b", verification_timestamp := "t",
          systems_checked := ["cra"], consolidated_data := [],
          red_flags := ["x"], verification_score := 0 }
    ∧ (0 ≤ calculate_verification_score
        { business_number := "b", verification_timestamp := "t",
          systems_checked := ["cra"], consolidated_data := [],
          red_flags := ["x"], verification_score := 0 }
      ∧ calculate_verification_score
        { business_number := "b", verification_timestamp := "t",
          systems_checked := ["cra"], consolidated_data := [],
          red_flags := ["x"], verification_score := 0 } ≤ 1) :=
  ⟨C3_score_monotone_and_bounded.1 _ _ rfl rfl,
   C3_score_monotone_and_bounded.2 _⟩

theorem verify_pure_systems_checked (bn ts : String)
    (outcomes : SystemCode → Except String SysData) :
    (verify_pure bn ts outcomes).systems_checked
      = (processResults outcomes (initResults bn ts) (determine_relevant_systems bn)).systems_checked :=
  rfl

theorem verify_pure_consolidated (bn ts : String)
    (outcomes : SystemCode → Except String SysData) :
    (verify_pure bn ts outcomes).consolidated_data
      = (processResults outcomes (initResults bn ts) (determine_relevant_systems bn)).consolidated_data :=
  rfl

theorem verify_pure_red_flags (bn ts : String)
    (outcomes : SystemCode → Except String SysData) :
    (verify_pure bn ts outcomes).red_flags
      = (processResults outcomes (initResults bn ts) (determine_relevant_systems bn)).red_flags :=
  rfl

theorem verify_pure_score (bn ts : String)
    (outcomes : SystemCode → Except String SysData) :
    (verify_pure bn ts outcomes).verification_score
      = calculate_verification_score
          (processResults outcomes (initResults bn ts) (determine_relevant_systems bn)) :=
  rfl

theorem run_systems_checked (bn ts : String)
    (outcomes : SystemCode → Except String SysData) :
    (verify_pure bn ts outcomes).systems_checked
      = (okSystems outcomes (determine_relevant_systems bn)).map SystemCode.value := by
  rw [verify_pure_systems_checked, processResults_systems_checked]
  simp [initResults]

theorem run_nodup_hyp (bn ts : String) (outcomes : SystemCode → Except String SysData) :
    ((initResults bn ts).consolidated_data.map Prod.fst
      ++ (okSystems outcomes (determine_relevant_systems bn)).map canonicalName).Nodup := by
  simp only [initResults, List.map_nil, List.nil_append]
  exact List.Nodup.sublist
    (List.Sublist.map canonicalName (List.filter_sublist (determine_relevant_systems bn)))
    (determine_relevant_systems_canonical_nodup bn)

theorem run_consolidated (bn ts : String)
    (outcomes : SystemCode → Except String SysData)
    (hname : ∀ s d, outcomes s = .ok d → d.system = canonicalName s) :
    (verify_pure bn ts outcomes).consolidated_data
      = okEntries outcomes (determine_relevant_systems bn) := by
  rw [verify_pure_consolidated,
    processResults_consolidated outcomes hname (determine_relevant_systems bn)
      (initResults bn ts) (run_nodup_hyp bn ts outcomes)]
  simp [initResults]

/-- Claim C1: in every invocation in which m of the selected adapters
succeed, systems_checked has length exactly m, consolidated_data has
exactly m entries, and its keys are exactly the names of the succeeding
systems — no entry for a failed or unqueried system. -/
theorem C1_partial_failure_shape (bn ts : String)
    (outcomes : SystemCode → Except String SysData)
    (hname : ∀ s d, outcomes s = .ok d → d.system = canonicalName s) :
    (verify_pure bn ts outcomes).systems_checked.length
        = (okSystems outcomes (determine_relevant_systems bn)).length
    ∧ (verify_pure bn ts outcomes).consolidated_data.length
        = (okSystems outcomes (determine_relevant_systems bn)).length
    ∧ ∀ name, (name ∈ (verify_pure bn ts outcomes).consolidated_data.map Prod.fst ↔
        ∃ s ∈ okSystems outcomes (determine_relevant_systems bn), name = canonicalName s) := by
  refine ⟨?_, ?_, ?_⟩
  · rw [run_systems_checked]
    simp
  · rw [run_consolidated bn ts outcomes hname]
    exact okEntries_length outcomes (determine_relevant_systems bn)
  · intro name
    rw [run_consolidated bn ts outcomes hname,
      okEntries_map_fst outcomes hname (determine_relevant_systems bn)]
    simp only [List.mem_map]
    constructor
    · rintro ⟨s, hs, rfl⟩
      exact ⟨s, hs, rfl⟩
    · rintro ⟨s, hs, rfl⟩
      exact ⟨s, hs, rfl⟩

/-- Claim C1 witness: two succeeding and two failing adapters yield two
checked systems and two consolidated entries, keyed CRA and ISED. -/
theorem C1_partial_failure_shape_witness :
    (∀ s d, c1Outcomes s = .ok d → d.system = canonicalName s)
    ∧ ((verify_pure "999" "t" c1Outcomes).systems_checked.length
          = (okSystems c1Outcomes (determine_relevant_systems "999")).length
      ∧ (verify_pure "999" "t" c1Outcomes).consolidated_data.length
          = (okSystems c1Outcomes (determine_relevant_systems "999")).length
      ∧ ∀ name, (name ∈ (verify_pure "999" "t" c1Outcomes).consolidated_data.map Prod.fst ↔
          ∃ s ∈ okSystems c1Outcomes (determine_relevant_systems "999"),
            name = canonicalName s)) := by
  have hname : ∀ s d, c1Outcomes s = .ok d → d.system = canonicalName s := by
    intro s d h
    cases s <;>
      first
        | (injection h with h2; subst h2; rfl)
        | (injection h)
  exact ⟨hname, C1_partial_failure_shape "999" "t" c1Outcomes hname⟩

/-- Claim C2 counterexample: the code has no NotFound outcome.  With CRA
returning an empty no-data record and ISED raising a NotFound error, the
empty CRA record is included in consolidated_data (the claim says a
found=false system is excluded), and the raising ISED is recorded as a
failure red flag and not as queried (the claim says it is recorded as
queried, not as a failure). -/
theorem C2_counterexample :
    "cra" ∈ (verify_pure "999" "t" c2Outcomes).systems_checked
    ∧ "CRA" ∈ (verify_pure "999" "t" c2Outcomes).consolidated_data.map Prod.fst
    ∧ "ised" ∉ (verify_pure "999" "t" c2Outcomes).systems_checked
    ∧ failMsg SystemCode.ISED "NotFound" ∈ (verify_pure "999" "t" c2Outcomes).red_flags := by
  decide

/-- Claim C2 amended: the code does not represent NotFound.  An adapter
call either returns data, in which case its system is recorded in
systems_checked and its record is included in consolidated_data, or it
raises, in which case the system is absent from systems_checked and a
failure red flag is recorded. -/
theorem C2_no_notfound_outcome (bn ts : String)
    (outcomes : SystemCode → Except String SysData)
    (hname : ∀ s d, outcomes s = .ok d → d.system = canonicalName s) :
    ∀ s ∈ determine_relevant_systems bn,
      (∀ d, outcomes s = .ok d →
          s.value ∈ (verify_pure bn ts outcomes).systems_checked
          ∧ canonicalName s ∈ (verify_pure bn ts outcomes).consolidated_data.map Prod.fst)
      ∧ (∀ e, outcomes s = .error e →
          s.value ∉ (verify_pure bn ts outcomes).systems_checked
          ∧ failMsg s e ∈ (verify_pure bn ts outcomes).red_flags) := by
  intro s hs
  constructor
  · intro d hd
    have hok : s ∈ okSystems outcomes (determine_relevant_systems bn) :=
      List.mem_filter.mpr ⟨hs, by simp [hd]⟩
    constructor
    · rw [run_systems_checked]
      exact List.mem_map.mpr ⟨s, hok, rfl⟩
    · rw [run_consolidated bn ts outcomes hname,
        okEntries_map_fst outcomes hname (determine_relevant_systems bn)]
      exact List.mem_map.mpr ⟨s, hok, rfl⟩
  · intro e he
    constructor
    · rw [run_systems_checked]
      intro hmem
      obtain ⟨s2, hs2, hval⟩ := List.mem_map.mp hmem
      obtain rfl := value_injective s2 s hval
      have := (List.mem_filter.mp hs2).2
      rw [he] at this
      simp at this
    · rw [verify_pure_red_flags]
      exact processResults_failMsg_mem outcomes (determine_relevant_systems bn)
        (initResults bn ts) s e hs he

/-- Claim C2 amended witness: in the concrete run of the counterexample,
the succeeding CRA lands in both systems_checked and consolidated_data,
and the raising ISED is excluded from systems_checked with a failure
flag recorded. -/
theorem C2_no_notfound_outcome_witness :
    ((∀ s d, c2Outcomes s = .ok d → d.system = canonicalName s)
      ∧ SystemCode.ISED ∈ determine_relevant_systems "999"
      ∧ c2Outcomes SystemCode.ISED = .error "NotFound")
    ∧ (SystemCode.ISED.value ∉ (verify_pure "999" "t" c2Outcomes).systems_checked
      ∧ failMsg SystemCode.ISED "NotFound" ∈ (verify_pure "999" "t" c2Outcomes).red_flags) := by
  have hname : ∀ s d, c2Outcomes s = .ok d → d.system = canonicalName s := by
    intro s d h
    cases s <;>
      first
        | (injection h with h2; subst h2; rfl)
        | (injection h)
  refine ⟨⟨hname, by decide, rfl⟩, ?_⟩
  exact (C2_no_notfound_outcome "999" "t" c2Outcomes hname SystemCode.ISED (by decide)).2
    "NotFound" rfl

/-- Claim C6 counterexample: with every adapter failing, systems_checked
is empty and the score is the floor 0, but red_flags consists solely of
the per-system failure strings; no flag equals or contains
no-systems-reachable, which the claim requires. -/
theorem C6_counterexample :
    (verify_pure "555" "t" c6Outcomes).systems_checked = []
    ∧ (verify_pure "555" "t" c6Outcomes).red_flags
        = [failMsg SystemCode.CRA "connection timeout",
           failMsg SystemCode.ISED "connection timeout",
           failMsg SystemCode.ISC "connection timeout",
           failMsg SystemCode.PSPC "connection timeout"]
    ∧ (∀ f ∈ (verify_pure "555" "t" c6Outcomes).red_flags,
        containsSeq "no-systems-reachable".data f.data = false)
    ∧ (verify_pure "555" "t" c6Outcomes).verification_score = 0 := by
  refine ⟨by decide, by decide, by decide, ?_⟩
  rw [verify_pure_score]
  unfold calculate_verification_score
  rw [(by decide : (processResults c6Outcomes (initResults "555" "t")
        (determine_relevant_systems "555")).systems_checked = []),
    (by decide : (processResults c6Outcomes (initResults "555" "t")
        (determine_relevant_systems "555")).red_flags.length = 4)]
  norm_num [preScore, min_def, max_def]

/-- Claim C6 amended: if zero of the selected adapters succeed, the
result has empty systems_checked, score 0 (the clamp floor), and one
failure red flag per failed system; the code produces no aggregate
no-systems-reachable flag. -/
theorem C6_all_fail (bn ts : String) (outcomes : SystemCode → Except String SysData)
    (errOf : SystemCode → String)
    (hfail : ∀ s ∈ determine_relevant_systems bn, outcomes s = .error (errOf s)) :
    (verify_pure bn ts outcomes).systems_checked = []
    ∧ (verify_pure bn ts outcomes).red_flags
        = (determine_relevant_systems bn).map (fun s => failMsg s (errOf s))
    ∧ (verify_pure bn ts outcomes).verification_score = 0 := by
  have hall := processResults_all_error outcomes errOf (determine_relevant_systems bn)
    (initResults bn ts) hfail
  have hsc : (verify_pure bn ts outcomes).systems_checked = [] := by
    rw [verify_pure_systems_checked, hall]
    simp [initResults]
  have hrf : (verify_pure bn ts outcomes).red_flags
      = (determine_relevant_systems bn).map (fun s => failMsg s (errOf s)) := by
    rw [verify_pure_red_flags, hall]
    simp [initResults]
  refine ⟨hsc, hrf, ?_⟩
  rw [verify_pure_score]
  unfold calculate_verification_score
  rw [show (processResults outcomes (initResults bn ts)
        (determine_relevant_systems bn)).systems_checked = [] from hsc]
  rw [show (processResults outcomes (initResults bn ts)
        (determine_relevant_systems bn)).red_flags.length
      = (determine_relevant_systems bn).length from by rw [show (processResults outcomes
        (initResults bn ts) (determine_relevant_systems bn)).red_flags
      = (determine_relevant_systems bn).map (fun s => failMsg s (errOf s)) from hrf]; simp]
  rcases determine_relevant_systems_length bn with h | h <;> rw [h] <;>
    norm_num [preScore, min_def, max_def]

/-- Claim C6 amended witness: the all-failure run of the counterexample
satisfies the amended statement. -/
theorem C6_all_fail_witness :
    (∀ s ∈ determine_relevant_systems "555",
        c6Outcomes s = .error ((fun _ => "connection timeout") s))
    ∧ ((verify_pure "555" "t" c6Outcomes).systems_checked = []
      ∧ (verify_pure "555" "t" c6Outcomes).red_flags
          = (determine_relevant_systems "555").map
              (fun s => failMsg s ((fun _ => "connection timeout") s))
      ∧ (verify_pure "555" "t" c6Outcomes).verification_score = 0) :=
  ⟨fun _ _ => rfl,
   C6_all_fail "555" "t" c6Outcomes (fun _ => "connection timeout") (fun _ _ => rfl)⟩

/-- Claim C7 amended: the address-mismatch rule fires iff CRA is present
in the consolidated record, the newly processed system is ISED, both the
CRA physical address and the ISED registered office are truthy
(non-empty), and their normalized forms differ.  In particular it never
fires when either system is absent, but also not when a present address
is empty, which the claim as stated overlooks. -/
theorem C7_address_rule_iff (c : Consolidated) (nd : SysData) (sys : SystemCode) :
    addrMsg ∈ check_data_inconsistencies c nd sys ↔
      (∃ cd, lookupSys c "CRA" = some cd ∧ sys = SystemCode.ISED
        ∧ addrTruthy cd.physical_address = true
        ∧ addrTruthy nd.registered_office = true
        ∧ normalizeOpt cd.physical_address ≠ normalizeOpt nd.registered_office) := by
  constructor
  · intro h
    unfold check_data_inconsistencies at h
    rcases List.mem_append.mp h with h1 | h1
    · rcases List.mem_append.mp h1 with h2 | h2
      · unfold addressFlags at h2
        split at h2
        · rename_i cd hcd
          split at h2
          · rename_i hsys
            split at h2
            · rename_i htr
              split at h2
              · rename_i hne
                simp only [Bool.and_eq_true] at htr
                exact ⟨cd, hcd, hsys, htr.1, htr.2, hne⟩
              · simp at h2
            · simp at h2
          · simp at h2
        · simp at h2
      · obtain ⟨st, _, heq⟩ := mem_statusFlags h2
        exact absurd heq.symm (statusMsg_ne_addrMsg st nd.system)
    · exact absurd (mem_ownershipFlags h1).symm (fun h3 => addrMsg_ne_ownMsg h3.symm)
  · rintro ⟨cd, hcd, rfl, ht1, ht2, hne⟩
    unfold check_data_inconsistencies
    apply List.mem_append.mpr
    left
    apply List.mem_append.mpr
    left
    unfold addressFlags
    rw [hcd]
    simp [ht1, ht2, hne]

/-- Claim C7 counterexample: CRA and ISED are both present in the
consolidated record, the CRA physical address is the empty dict, the
ISED registered office is non-empty, and their normalized forms differ,
yet no address-mismatch flag fires, because the code requires both
addresses to be truthy — refuting the claimed iff with presence alone. -/
theorem C7_counterexample :
    lookupSys (verify_pure "999" "t" c7Outcomes).consolidated_data "CRA"
        = some { system := "CRA", physical_address := some {} }
    ∧ lookupSys (verify_pure "999" "t" c7Outcomes).consolidated_data "ISED"
        = some { system := "ISED", registered_office := some { streetName := some "Main" } }
    ∧ normalizeOpt (some {}) ≠ normalizeOpt (some { streetName := some "Main" })
    ∧ addrMsg ∉ (verify_pure "999" "t" c7Outcomes).red_flags := by
  decide

/-- Claim C8 amended: the ownership-director-mismatch flag is raised iff
ISC and ISED are both present in the consolidated record, the ISC
ownership percentage (defaulting to 0) is at least 51 — not 50 as the
claim states — both the verified-owner set and director set are
non-empty, and fewer than half of the distinct directors appear among
the verified owners. -/
theorem C8_ownership_rule_iff (c : Consolidated) (nd : SysData) (sys : SystemCode) :
    ownMsg ∈ check_data_inconsistencies c nd sys ↔
      (∃ iscd isedd, lookupSys c "ISC" = some iscd ∧ lookupSys c "ISED" = some isedd
        ∧ (51 : ℚ) ≤ iscd.indigenous_ownership_percentage.getD 0
        ∧ (iscd.verified_owners.getD []).toFinset ≠ ∅
        ∧ (isedd.directors.getD []).toFinset ≠ ∅
        ∧ 2 * ((iscd.verified_owners.getD []).toFinset
              ∩ (isedd.directors.getD []).toFinset).card
            < (isedd.directors.getD []).toFinset.card) := by
  constructor
  · intro h
    unfold check_data_inconsistencies at h
    rcases List.mem_append.mp h with h1 | h1
    · rcases List.mem_append.mp h1 with h2 | h2
      · exact absurd (mem_addressFlags h2).symm (fun h3 => addrMsg_ne_ownMsg h3)
      · obtain ⟨st, _, heq⟩ := mem_statusFlags h2
        exact absurd heq.symm (statusMsg_ne_ownMsg st nd.system)
    · unfold ownershipFlags at h1
      split at h1
      · rename_i iscd isedd hisc hised
        split at h1
        · rename_i hpct
          split at h1
          · rename_i hnonempty
            split at h1
            · rename_i hcard
              exact ⟨iscd, isedd, hisc, hised, hpct, hnonempty.1, hnonempty.2, hcard⟩
            · simp at h1
          · simp at h1
        · simp at h1
      · simp at h1
  · rintro ⟨iscd, isedd, hisc, hised, hpct, hne1, hne2, hcard⟩
    unfold check_data_inconsistencies
    apply List.mem_append.mpr
    right
    unfold ownershipFlags
    rw [hisc, hised]
    simp [hpct, hne1, hne2, hcard]

/-- Claim C8 counterexample: ISC reports exactly 50 percent ownership
(at least 50, so the claim applies), ISED lists two directors of whom
none — fewer than half — is a verified owner, yet no flag is raised,
because the code requires at least 51 percent. -/
theorem C8_counterexample :
    lookupSys (verify_pure "999" "t" c8Outcomes).consolidated_data "ISC"
        = some { system := "ISC", indigenous_ownership_percentage := some 50,
                 verified_owners := some ["owner1"] }
    ∧ lookupSys (verify_pure "999" "t" c8Outcomes).consolidated_data "ISED"
        = some { system := "ISED", directors := some ["dir1", "dir2"] }
    ∧ (50 : ℚ) ≤ 50
    ∧ 2 * (((["owner1"] : List String)).toFinset
          ∩ ((["dir1", "dir2"] : List String)).toFinset).card
        < ((["dir1", "dir2"] : List String)).toFinset.card
    ∧ ownMsg ∉ (verify_pure "999" "t" c8Outcomes).red_flags := by
  refine ⟨by decide, by decide, by norm_num, by decide, by decide⟩

/-- Claim C9 counterexample: in a run where CRA succeeds, persistence
attempts one database write for it; when that write raises, the call
returns the storage error — the caller does not receive the
VerificationResult, and nothing catches or logs the failure. -/
theorem C9_counterexample :
    (verify_pure "999" "t" c9Outcomes).systems_checked = ["cra"]
    ∧ verify_business_across_systems "999" "t" c9Outcomes
        (fun _ => .error "db write failed")
      = .error "db write failed" :=
  ⟨by decide, rfl⟩

/-- Claim C9 amended: the persistence loop writes once per checked
system and is not guarded: when a write raises, the error propagates out
of verify_business_across_systems and the caller does not receive the
VerificationResult; when every write succeeds the result is returned,
and when no system succeeded no write is attempted, so the result is
returned whatever the database would do. -/
theorem C9_persistence_propagates (bn ts : String)
    (outcomes : SystemCode → Except String SysData)
    (dbExec : String → Except String Unit) :
    (∀ e, store_verification_results dbExec (verify_pure bn ts outcomes).systems_checked
          = .error e →
        verify_business_across_systems bn ts outcomes dbExec = .error e)
    ∧ (∀ u, store_verification_results dbExec (verify_pure bn ts outcomes).systems_checked
          = .ok u →
        verify_business_across_systems bn ts outcomes dbExec
          = .ok (verify_pure bn ts outcomes))
    ∧ ((verify_pure bn ts outcomes).systems_checked = [] →
        verify_business_across_systems bn ts outcomes dbExec
          = .ok (verify_pure bn ts outcomes)) := by
  have hdef : verify_business_across_systems bn ts outcomes dbExec
      = match store_verification_results dbExec
            (verify_pure bn ts outcomes).systems_checked with
        | .error e2 => .error e2
        | .ok _ => .ok (verify_pure bn ts outcomes) := rfl
  refine ⟨?_, ?_, ?_⟩
  · intro e he
    rw [hdef, he]
  · intro u hu
    rw [hdef, hu]
  · intro hemp
    rw [hdef, hemp]
    rfl

/-- Claim C9 amended witness: with CRA succeeding, a failing database
write propagates its error and a succeeding one returns the result; with
every adapter failing, no write is attempted and the caller receives the
result even though the database would fail. -/
theorem C9_persistence_propagates_witness :
    (store_verification_results (fun _ => .error "db down")
        (verify_pure "999" "t" c9Outcomes).systems_checked = .error "db down"
      ∧ verify_business_across_systems "999" "t" c9Outcomes
          (fun _ => .error "db down") = .error "db down")
    ∧ (store_verification_results (fun _ => .ok ())
        (verify_pure "999" "t" c9Outcomes).systems_checked = .ok ()
      ∧ verify_business_across_systems "999" "t" c9Outcomes
          (fun _ => .ok ()) = .ok (verify_pure "999" "t" c9Outcomes))
    ∧ ((verify_pure "555" "t" (fun _ => .error "net")).systems_checked = []
      ∧ verify_business_across_systems "555" "t" (fun _ => .error "net")
          (fun _ => .error "db down")
        = .ok (verify_pure "555" "t" (fun _ => .error "net"))) :=
  ⟨⟨rfl, (C9_persistence_propagates "999" "t" c9Outcomes
      (fun _ => .error "db down")).1 "db down" rfl⟩,
   ⟨rfl, (C9_persistence_propagates "999" "t" c9Outcomes
      (fun _ => .ok ())).2.1 () rfl⟩,
   ⟨by decide, (C9_persistence_propagates "555" "t" (fun _ => .error "net")
      (fun _ => .error "db down")).2.2 (by decide)⟩⟩

/-- Claim C10: every failing adapter call appends exactly one failure
red flag (the string Failed to verify with system: error), so red_flags
is non-empty whenever at least one selected adapter fails; and one more
unreachable baseline system lowers the pre-clamp score by both the 0.1
coverage penalty and the 0.15 red-flag penalty. -/
theorem C10_failure_flags_and_penalties (bn ts : String)
    (outcomes : SystemCode → Except String SysData) :
    (∀ s ∈ determine_relevant_systems bn, ∀ e, outcomes s = .error e →
        failMsg s e ∈ (verify_pure bn ts outcomes).red_flags)
    ∧ (verify_pure bn ts outcomes).red_flags.countP isFailureFlag
        = ((determine_relevant_systems bn).filter (fun s => ! isOkB (outcomes s))).length
    ∧ (((determine_relevant_systems bn).filter (fun s => ! isOkB (outcomes s))).length ≠ 0 →
        (verify_pure bn ts outcomes).red_flags ≠ [])
    ∧ (∀ r : VerificationResults, calculate_verification_score r
        = max 0 (min 1 (preScore r.systems_checked.length r.red_flags.length)))
    ∧ (∀ ck fl : ℕ, preScore ck (fl + 1) = preScore (ck + 1) fl - 1 / 10 - 15 / 100) := by
  have hcount : (verify_pure bn ts outcomes).red_flags.countP isFailureFlag
      = ((determine_relevant_systems bn).filter (fun s => ! isOkB (outcomes s))).length := by
    rw [verify_pure_red_flags, processResults_red_flags_countP]
    simp [initResults]
  refine ⟨?_, hcount, ?_, fun r => rfl, ?_⟩
  · intro s hs e he
    rw [verify_pure_red_flags]
    exact processResults_failMsg_mem outcomes _ _ s e hs he
  · intro hne hempty
    rw [hempty] at hcount
    simp at hcount
    exact hne hcount.symm
  · intro ck fl
    unfold preScore
    push_cast
    ring

/-- Claim C10 witness: with every adapter failing on a concrete run, the
CRA failure flag is present and red_flags is non-empty. -/
theorem C10_failure_flags_and_penalties_witness :
    (SystemCode.CRA ∈ determine_relevant_systems "999"
      ∧ (fun _ : SystemCode => (.error "net" : Except String SysData)) SystemCode.CRA
          = .error "net"
      ∧ ((determine_relevant_systems "999").filter
          (fun s => ! isOkB ((fun _ => .error "net") s))).length ≠ 0)
    ∧ failMsg SystemCode.CRA "net"
        ∈ (verify_pure "999" "t" (fun _ => .error "net")).red_flags
    ∧ (verify_pure "999" "t" (fun _ => .error "net")).red_flags ≠ [] :=
  ⟨⟨by decide, rfl, by decide⟩,
   (C10_failure_flags_and_penalties "999" "t" (fun _ => .error "net")).1
     SystemCode.CRA (by decide) "net" rfl,
   (C10_failure_flags_and_penalties "999" "t" (fun _ => .error "net")).2.2.1
     (by decide)⟩

end GovInt
